import Mathlib

/-!
Shallow embedding of the Elastic Beanstalk environment-management module
(src/cloud/amazon/elastic_beanstalk.py).

The remote control plane (the boto beanstalk client) is modelled as a
record of predetermined responses: one response per single-shot API call,
and a queue of responses for describe_environments, which is re-issued by
the polling loops.  Each module-level function is translated into a pure
Lean function from the parameters and the client record to an outcome and
the ordered list of remote calls it issued.

Outcomes distinguish the four ways a run can end in the Python source:
a normal return, a module.fail_json abort, an uncaught Python exception
(e.g. an unbound local variable or an unguarded None subscript), and the
case where a polling loop consumes the whole response queue without its
exit condition holding (the unbounded while loop still running).
-/

namespace ElasticBeanstalk

/-- An environment record as returned by describe_environments.  Only the
fields the module reads are modelled; CNAME is optional because the swap
lookup subscripts it and a missing key raises a KeyError there. -/
structure Environment where
  EnvironmentId : String
  EnvironmentName : String
  Status : String
  CNAME : Option String
deriving Repr, DecidableEq

/-- Response to a describe_environments call: either an exception from the
query or a malformed response shape (both are caught together in the
source), or the list of environment records. -/
inductive DescribeResult where
  | err (msg : String)
  | ok (envs : List Environment)
deriving Repr, DecidableEq

/-- Result of a mutating API call: normal return, or an exception carrying
the message the source compares against. -/
inductive CreateResult where
  | ok
  | exn (message : String)
deriving Repr, DecidableEq

/-- An application version record; the two SourceBundle fields the module
reads. -/
structure VersionRecord where
  S3Bucket : String
  S3Key : String
deriving Repr, DecidableEq

/-- The remote calls the module can issue, for the call log. -/
inductive Call where
  | describeEnv
  | listStacks
  | createApp
  | createAppVersion
  | describeAppVersions
  | checkDns
  | describeAllEnvs
  | createEnv
  | createEnvNoCname
  | swapCnames
  | terminateEnv
  | restartAppServer
deriving Repr, DecidableEq

/-- Module parameters (module.params).  environment_options items carry
Namespace/OptionName/Value as in the documented list form. -/
structure EnvOptionItem where
  Namespace : String
  OptionName : String
  Value : String
deriving Repr, DecidableEq

structure Params where
  application_name : String
  application_version : String
  environment_name : String
  cname : String
  application_s3_bucket : String
  application_s3_key : String
  solution_stack : Option String
  redeploy : Bool
  environment_options : List EnvOptionItem
deriving Repr, DecidableEq

/-- The boto beanstalk client, modelled as predetermined responses.
describeEnvQ is consumed one element per describe_environments call with
environment_names (retrieve_environment); the other fields answer the
remaining calls, each of which the source issues at most once per run. -/
structure Beanstalk where
  describeEnvQ : List DescribeResult
  listStacksR : Except String (List String)
  createAppR : CreateResult
  createAppVersionR : CreateResult
  describeVersionsR : Except String (List VersionRecord)
  checkDnsR : Except String Bool
  describeAllR : DescribeResult
  createEnvR : CreateResult
  createEnvSwapR : CreateResult
  swapR : CreateResult
  terminateR : CreateResult
  restartR : CreateResult
deriving Repr

/-- Final outcome of a run of one of the make_* functions. -/
inductive Outcome where
  | ok (changed : Bool) (environment : Option Environment)
  | fail (msg : String)
  | crash (msg : String)
  | hang
deriving Repr, DecidableEq

/-- retrieve_environment, lines 141-160: returns the first record, absence
for an empty list or a first record with status Terminated, and aborts via
fail_json when the query raised or the response shape was missing. -/
def retrieve_environment (r : DescribeResult) : Except String (Option Environment) :=
  match r with
  | .err e => .error ("Unable to retrieve environment information: " ++ e)
  | .ok environment_list =>
    match environment_list with
    | [] => .ok none
    | environment :: _ =>
      if environment.Status ∈ ["Terminated"] then .ok none
      else .ok (some environment)

/-- One retrieve_environment call against the response queue. -/
inductive RRes where
  | out (e : Option Environment)
  | failj (msg : String)
  | exhausted
deriving Repr, DecidableEq

def retrieveNext : List DescribeResult → RRes × List DescribeResult
  | [] => (.exhausted, [])
  | r :: rest =>
    match retrieve_environment r with
    | .error m => (.failj m, rest)
    | .ok e => (.out e, rest)

/-- How a polling loop ends. -/
inductive PollRes where
  | done
  | failj (msg : String)
  | crashed (msg : String)
  | exhausted
deriving Repr, DecidableEq

/-- The readiness polling loop:
status = None; while status != Ready: sleep(10); status = retrieve(...)[Status].
Each iteration consumes one describe response.  A read that returns
absence makes the subscript crash with a TypeError; a read that aborts
inside retrieve_environment aborts the run.  Returns the loop result, the
remaining queue and the number of describe calls consumed. -/
def pollStatus : List DescribeResult → PollRes × List DescribeResult × Nat
  | [] => (.exhausted, [], 0)
  | r :: rest =>
    match retrieve_environment r with
    | .error m => (.failj m, rest, 1)
    | .ok none => (.crashed "TypeError: NoneType object is not subscriptable", rest, 1)
    | .ok (some environment) =>
      if environment.Status = "Ready" then (.done, rest, 1)
      else
        let (res, q, n) := pollStatus rest
        (res, q, n + 1)

/-- The termination polling loop of make_absent:
while retrieve_environment(...): sleep(10).
Loop exits when a read reports absence; each condition evaluation consumes
one describe response. -/
def pollUntilGone : List DescribeResult → PollRes × List DescribeResult × Nat
  | [] => (.exhausted, [], 0)
  | r :: rest =>
    match retrieve_environment r with
    | .error m => (.failj m, rest, 1)
    | .ok none => (.done, rest, 1)
    | .ok (some _) =>
      let (res, q, n) := pollUntilGone rest
      (res, q, n + 1)

/-- The leading label of a CNAME: cname.split(".")[:1][0], i.e. the
characters before the first dot, or the whole string when there is no
dot (split never yields an empty list, so the index cannot fail). -/
def firstLabel (s : String) : String :=
  String.mk (s.toList.takeWhile (fun c => c != '.'))

/-- Result of the next(...) lookup that derives the swap source. -/
inductive FindRes where
  | found (e : Environment)
  | stopIteration
  | keyError
deriving Repr, DecidableEq

/-- The generator expression of lines 296-300, evaluated lazily by next():
records are scanned in order; a record whose CNAME key is missing raises a
KeyError (caught, fail_json); if the scan ends without a match, next()
raises StopIteration, which is not a LookupError and is not caught. -/
def findCurrentEnvironment (cname : String) : List Environment → FindRes
  | [] => .stopIteration
  | environment :: rest =>
    match environment.CNAME with
    | none => .keyError
    | some c =>
      if firstLabel c = cname then .found environment
      else findCurrentEnvironment cname rest

/-- Result of an inline provisioning step of make_present. -/
inductive StepRes where
  | ok (changed : Bool)
  | fail (msg : String)
  | crash (msg : String)
deriving Repr, DecidableEq

/-- Lines 204-216: create the application; an exception whose message is
not the already-exists text is fatal; on the already-exists text fall
through without touching changed; otherwise set changed. -/
def ensure_application (application_name : String) (r : CreateResult) (changed : Bool) :
    StepRes :=
  match r with
  | .ok => .ok true
  | .exn msg =>
    if msg ≠ "Application " ++ application_name ++ " already exists." then
      .fail ("Unable to create Application " ++ application_name ++ ": " ++ msg)
    else .ok changed

/-- Lines 221-255: create the application version.  On the already-exists
message, describe the existing version (an uncaught query error or an
empty result list crashes) and compare its SourceBundle against the
requested bucket and key: a difference is fatal, a match falls through
with changed untouched.  Any other creation error is fatal.  Also returns
the remote calls this step issued. -/
def ensure_application_version (p : Params) (b : Beanstalk) (changed : Bool) :
    StepRes × List Call :=
  match b.createAppVersionR with
  | .ok => (.ok true, [Call.createAppVersion])
  | .exn msg =>
    if msg = "Application Version " ++ p.application_version ++ " already exists." then
      (match b.describeVersionsR with
       | .error e => .crash e
       | .ok versions =>
         match versions with
         | [] => .crash "IndexError: list index out of range"
         | existing_version :: _ =>
           if p.application_s3_bucket ≠ existing_version.S3Bucket ∨
              p.application_s3_key ≠ existing_version.S3Key then
             .fail ("S3 path for existing Application version " ++ p.application_version ++
               " does not match arguments supplied")
           else .ok changed,
       [Call.createAppVersion, Call.describeAppVersions])
    else
      (.fail ("Unable to create Application version" ++ p.application_version ++ ": " ++ msg),
       [Call.createAppVersion])

/-- Line 350 (and the analogous ends of make_absent and make_restarted):
one more retrieve_environment call whose value is returned. -/
def finalRead (changed : Bool) (q : List DescribeResult) (log : List Call) :
    Outcome × List Call :=
  let log := log ++ [Call.describeEnv]
  match retrieveNext q with
  | (.exhausted, _) => (.hang, log)
  | (.failj m, _) => (.fail m, log)
  | (.out e, _) => (.ok changed e, log)

/-- Lines 263-284: the direct-create branch taken when the CNAME is
available.  Any creation exception is fatal; on success poll until Ready,
then fall through to the final read. -/
def directCreate (p : Params) (b : Beanstalk) (q : List DescribeResult) (log : List Call) :
    Outcome × List Call :=
  let log := log ++ [Call.createEnv]
  match b.createEnvR with
  | .exn msg =>
    (.fail ("Unable to create Environment " ++ p.environment_name ++ ": " ++ msg), log)
  | .ok =>
    let (res, q2, n) := pollStatus q
    let log := log ++ List.replicate n Call.describeEnv
    match res with
    | .exhausted => (.hang, log)
    | .failj m => (.fail m, log)
    | .crashed m => (.crash m, log)
    | .done => finalRead true q2 log

/-- Lines 332-347: the swap step.  new_environment is Option-wrapped
twice: the outer none models the Python local never having been assigned
(referencing it raises an uncaught UnboundLocalError before the swap call
is made); some none models it being bound to None (subscripting raises an
uncaught TypeError).  Only with a real record is swap_environment_cnames
called; a swap exception is fatal, success polls until Ready and falls
through to the final read. -/
def doSwap (b : Beanstalk) (new_environment : Option (Option Environment))
    (q : List DescribeResult) (log : List Call) : Outcome × List Call :=
  match new_environment with
  | none =>
    (.crash "NameError: local variable new_environment referenced before assignment", log)
  | some none => (.crash "TypeError: NoneType object is not subscriptable", log)
  | some (some _) =>
    let log := log ++ [Call.swapCnames]
    match b.swapR with
    | .exn msg => (.fail ("Unable to swap CNAMEs: " ++ msg), log)
    | .ok =>
      let (res, q2, n) := pollStatus q
      let log := log ++ List.replicate n Call.describeEnv
      match res with
      | .exhausted => (.hang, log)
      | .failj m => (.fail m, log)
      | .crashed m => (.crash m, log)
      | .done => finalRead true q2 log

/-- Lines 286-347: the swap branch taken when the CNAME is unavailable and
redeploy is set.  Enumerate all environments (any caught error is fatal),
derive the source environment by CNAME leading label, create the new
environment without a CNAME, tolerating only the already-exists message
(which leaves new_environment unassigned), poll and re-read on success,
then perform the swap step. -/
def swapDeploy (p : Params) (b : Beanstalk) (q : List DescribeResult) (log : List Call) :
    Outcome × List Call :=
  let log := log ++ [Call.describeAllEnvs]
  match b.describeAllR with
  | .err m => (.fail ("Unable to retrieve environment information: " ++ m), log)
  | .ok environment_list =>
    match findCurrentEnvironment p.cname environment_list with
    | .stopIteration => (.crash "StopIteration", log)
    | .keyError => (.fail "Unable to derive CNAME prefix from environment: KeyError", log)
    | .found _current_environment =>
      let log := log ++ [Call.createEnvNoCname]
      match b.createEnvSwapR with
      | .exn msg =>
        if msg ≠ "Environment " ++ p.environment_name ++ " already exists." then
          (.fail ("Unable to create Environment " ++ p.environment_name ++ ": " ++ msg), log)
        else
          doSwap b none q log
      | .ok =>
        let (res, q2, n) := pollStatus q
        let log := log ++ List.replicate n Call.describeEnv
        match res with
        | .exhausted => (.hang, log)
        | .failj m => (.fail m, log)
        | .crashed m => (.crash m, log)
        | .done =>
          let log := log ++ [Call.describeEnv]
          match retrieveNext q2 with
          | (.exhausted, _) => (.hang, log)
          | (.failj m, _) => (.fail m, log)
          | (.out ne, q3) => doSwap b (some ne) q3 log

/-- make_present, lines 163-350.  Short-circuit when the environment
exists and redeploy is off; validate the solution stack against the
advertised catalog; ensure application and application version; branch on
CNAME availability into direct create, swap deploy, or the CNAME-conflict
failure; end with the final read. -/
def make_present (p : Params) (b : Beanstalk) : Outcome × List Call :=
  let _environment_options :=
    p.environment_options.map (fun item => (item.Namespace, item.OptionName, item.Value))
  match retrieveNext b.describeEnvQ with
  | (.exhausted, _) => (.hang, [Call.describeEnv])
  | (.failj m, _) => (.fail m, [Call.describeEnv])
  | (.out environment, q1) =>
    if environment.isSome && !p.redeploy then
      (.ok false environment, [Call.describeEnv])
    else
      let log := [Call.describeEnv, Call.listStacks]
      match b.listStacksR with
      | .error m => (.crash m, log)
      | .ok available_solution_stacks =>
        let ss := p.solution_stack.getD ""
        if ss = "" then (.fail "A solution stack must be provided.", log)
        else if ¬ available_solution_stacks.contains ss then
          (.fail ("Solution stack " ++ ss ++
            " is not in the list of available solution stacks."), log)
        else
          let log := log ++ [Call.createApp]
          match ensure_application p.application_name b.createAppR false with
          | .fail m => (.fail m, log)
          | .crash m => (.crash m, log)
          | .ok changed1 =>
            let (avRes, avCalls) := ensure_application_version p b changed1
            let log := log ++ avCalls
            match avRes with
            | .fail m => (.fail m, log)
            | .crash m => (.crash m, log)
            | .ok changed2 =>
              let log := log ++ [Call.checkDns]
              match b.checkDnsR with
              | .error m => (.crash m, log)
              | .ok available =>
                if available then directCreate p b q1 log
                else if p.redeploy then swapDeploy p b q1 log
                else
                  let _ := changed2
                  (.fail "CNAME already in use and redeploy parameter not specified.", log)

/-- make_absent, lines 352-379: require existence, terminate (fatal on
exception), poll until a read reports absence, return changed with one
more read. -/
def make_absent (p : Params) (b : Beanstalk) : Outcome × List Call :=
  match retrieveNext b.describeEnvQ with
  | (.exhausted, _) => (.hang, [Call.describeEnv])
  | (.failj m, _) => (.fail m, [Call.describeEnv])
  | (.out none, _) =>
    (.fail ("Environment " ++ p.environment_name ++ " not found for Application " ++
      p.application_name ++ "."), [Call.describeEnv])
  | (.out (some _), q1) =>
    match b.terminateR with
    | .exn msg =>
      (.fail ("Unable to terminate Environment " ++ p.environment_name ++ ": " ++ msg),
       [Call.describeEnv, Call.terminateEnv])
    | .ok =>
      let (res, q2, n) := pollUntilGone q1
      let log := [Call.describeEnv, Call.terminateEnv] ++ List.replicate n Call.describeEnv
      match res with
      | .exhausted => (.hang, log)
      | .failj m => (.fail m, log)
      | .crashed m => (.crash m, log)
      | .done => finalRead true q2 log

/-- make_restarted, lines 381-405: require existence, restart the app
server (fatal on exception), poll until Ready, return changed with one
more read. -/
def make_restarted (p : Params) (b : Beanstalk) : Outcome × List Call :=
  match retrieveNext b.describeEnvQ with
  | (.exhausted, _) => (.hang, [Call.describeEnv])
  | (.failj m, _) => (.fail m, [Call.describeEnv])
  | (.out none, _) =>
    (.fail ("Environment " ++ p.environment_name ++ " not found for Application " ++
      p.application_name ++ "."), [Call.describeEnv])
  | (.out (some _), q1) =>
    match b.restartR with
    | .exn msg =>
      (.fail ("Unable to restart application server: " ++ msg),
       [Call.describeEnv, Call.restartAppServer])
    | .ok =>
      let (res, q2, n) := pollStatus q1
      let log := [Call.describeEnv, Call.restartAppServer] ++ List.replicate n Call.describeEnv
      match res with
      | .exhausted => (.hang, log)
      | .failj m => (.fail m, log)
      | .crashed m => (.crash m, log)
      | .done => finalRead true q2 log

/-- Helper: when the short-circuit does not apply, the solution stack is
advertised, and the application and application-version steps end
benignly, make_present reduces to the CNAME-availability branch, with the
calls issued so far logged. -/
theorem make_present_branches (p : Params) (b : Beanstalk) (r : DescribeResult)
    (q : List DescribeResult) (envOpt : Option Environment) (stackList : List String)
    (c1 c2 : Bool) (avc : List Call) (dnsA : Bool)
    (hq : b.describeEnvQ = r :: q)
    (hr : retrieve_environment r = .ok envOpt)
    (hsc : (envOpt.isSome && !p.redeploy) = false)
    (hls : b.listStacksR = .ok stackList)
    (hss : p.solution_stack.getD "" ≠ "")
    (hmem : p.solution_stack.getD "" ∈ stackList)
    (ha : ensure_application p.application_name b.createAppR false = .ok c1)
    (hv : ensure_application_version p b c1 = (.ok c2, avc))
    (hdns : b.checkDnsR = .ok dnsA) :
    make_present p b =
      if dnsA then
        directCreate p b q
          ([Call.describeEnv, Call.listStacks, Call.createApp] ++ avc ++ [Call.checkDns])
      else if p.redeploy then
        swapDeploy p b q
          ([Call.describeEnv, Call.listStacks, Call.createApp] ++ avc ++ [Call.checkDns])
      else
        (.fail "CNAME already in use and redeploy parameter not specified.",
         [Call.describeEnv, Call.listStacks, Call.createApp] ++ avc ++ [Call.checkDns]) := by
  simp [make_present, retrieveNext, hq, hr, hsc, hls, hss, hmem, ha, hv, hdns]

/-- C7: the Remote State Reader maps a query error or malformed shape to
the retrieval failure, an empty match list to absence, a first match with
status Terminated to absence, and any other first match to that record;
it errors exactly on an erroneous query. -/
theorem retrieve_environment_spec :
    (∀ m, retrieve_environment (.err m) =
      .error ("Unable to retrieve environment information: " ++ m)) ∧
    retrieve_environment (.ok []) = .ok none ∧
    (∀ e rest, retrieve_environment (.ok (e :: rest)) =
      .ok (if e.Status = "Terminated" then none else some e)) ∧
    (∀ r, (∃ m, retrieve_environment r = .error m) ↔ ∃ m, r = .err m) := by
  refine ⟨fun m => rfl, rfl, fun e rest => ?_, fun r => ?_⟩
  · by_cases hT : e.Status = "Terminated" <;> simp [retrieve_environment, hT]
  · constructor
    · rintro ⟨m, hm⟩
      cases r with
      | err m2 => exact ⟨m2, rfl⟩
      | ok l =>
        exfalso
        cases l with
        | nil => simp [retrieve_environment] at hm
        | cons e rest =>
          by_cases hT : e.Status = "Terminated" <;>
            simp [retrieve_environment, hT] at hm
    · rintro ⟨m, rfl⟩
      exact ⟨_, rfl⟩

/-- C1: when the initial read finds an environment and redeploy is false,
make_present returns unchanged with that exact record, after only the one
describe call. -/
theorem make_present_short_circuit (p : Params) (b : Beanstalk) (r : DescribeResult)
    (q : List DescribeResult) (env : Environment)
    (hq : b.describeEnvQ = r :: q)
    (hr : retrieve_environment r = .ok (some env))
    (hred : p.redeploy = false) :
    make_present p b = (.ok false (some env), [Call.describeEnv]) := by
  simp [make_present, retrieveNext, hq, hr, hred]

/-- Witness for C1 at a concrete client whose environment differs from the
requested version. -/
theorem make_present_short_circuit_witness :
    make_present
      ⟨"app", "1.0", "myenv", "my_cname", "bkt", "key", some "stack", false, []⟩
      ⟨[DescribeResult.ok [⟨"e-1", "myenv", "Ready", some "my_cname.example.com"⟩]],
        .ok [], .ok, .ok, .ok [], .ok true, .ok [], .ok, .ok, .ok, .ok, .ok⟩ =
      (.ok false (some ⟨"e-1", "myenv", "Ready", some "my_cname.example.com"⟩),
       [Call.describeEnv]) :=
  make_present_short_circuit _ _ _ _ _ rfl rfl rfl

/-- C5: the application-version step: on the already-exists message, a
bucket or key mismatch with the recorded source bundle is fatal and a
full match succeeds leaving changed untouched; any other creation error
is fatal. -/
theorem ensure_application_version_spec (p : Params) (changed : Bool) :
    (∀ b v vs,
      b.createAppVersionR =
        .exn ("Application Version " ++ p.application_version ++ " already exists.") →
      b.describeVersionsR = .ok (v :: vs) →
      ((p.application_s3_bucket ≠ v.S3Bucket ∨ p.application_s3_key ≠ v.S3Key) →
        (ensure_application_version p b changed).1 =
          .fail ("S3 path for existing Application version " ++ p.application_version ++
            " does not match arguments supplied")) ∧
      (p.application_s3_bucket = v.S3Bucket → p.application_s3_key = v.S3Key →
        (ensure_application_version p b changed).1 = .ok changed)) ∧
    (∀ b msg,
      b.createAppVersionR = .exn msg →
      msg ≠ "Application Version " ++ p.application_version ++ " already exists." →
      (ensure_application_version p b changed).1 =
        .fail ("Unable to create Application version" ++ p.application_version ++
          ": " ++ msg)) := by
  constructor
  · intro b v vs hc hd
    constructor
    · intro hne
      simp [ensure_application_version, hc, hd, hne]
    · intro hb hk
      simp [ensure_application_version, hc, hd, hb, hk]
  · intro b msg hc hne
    simp [ensure_application_version, hc, hne]

/-- Witness for C5: a differing recorded bucket is fatal, an identical
bucket and key succeed without recording a change, and an unrelated
creation error is fatal. -/
theorem ensure_application_version_spec_witness :
    (ensure_application_version
      ⟨"app", "2.0", "env", "cn", "bkt", "key", some "stack", false, []⟩
      ⟨[], .ok [], .ok, .exn "Application Version 2.0 already exists.",
        .ok [⟨"other", "key"⟩], .ok true, .ok [], .ok, .ok, .ok, .ok, .ok⟩ true).1 =
      .fail "S3 path for existing Application version 2.0 does not match arguments supplied" ∧
    (ensure_application_version
      ⟨"app", "2.0", "env", "cn", "bkt", "key", some "stack", false, []⟩
      ⟨[], .ok [], .ok, .exn "Application Version 2.0 already exists.",
        .ok [⟨"bkt", "key"⟩], .ok true, .ok [], .ok, .ok, .ok, .ok, .ok⟩ false).1 =
      .ok false ∧
    (ensure_application_version
      ⟨"app", "2.0", "env", "cn", "bkt", "key", some "stack", false, []⟩
      ⟨[], .ok [], .ok, .exn "boom", .ok [], .ok true, .ok [], .ok, .ok, .ok, .ok, .ok⟩
      true).1 =
      .fail "Unable to create Application version2.0: boom" := by
  refine ⟨((ensure_application_version_spec _ true).1 _ ⟨"other", "key"⟩ [] rfl rfl).1
      (Or.inl (by decide)),
    ((ensure_application_version_spec _ false).1 _ ⟨"bkt", "key"⟩ [] rfl rfl).2 rfl rfl,
    (ensure_application_version_spec _ true).2 _ "boom" rfl (by decide)⟩

/-- C6: make_absent fails with not-found when no environment exists;
otherwise it terminates (fatally on a termination exception), polls until
a read reports absence, and returns changed=true with the final null
read. -/
theorem make_absent_spec (p : Params) :
    (∀ b r q, b.describeEnvQ = r :: q → retrieve_environment r = .ok none →
      make_absent p b =
        (.fail ("Environment " ++ p.environment_name ++ " not found for Application " ++
          p.application_name ++ "."), [Call.describeEnv])) ∧
    (∀ b r q env msg, b.describeEnvQ = r :: q → retrieve_environment r = .ok (some env) →
      b.terminateR = .exn msg →
      make_absent p b =
        (.fail ("Unable to terminate Environment " ++ p.environment_name ++ ": " ++ msg),
         [Call.describeEnv, Call.terminateEnv])) ∧
    (∀ b r q env q2 q3 n rg, b.describeEnvQ = r :: q →
      retrieve_environment r = .ok (some env) → b.terminateR = .ok →
      pollUntilGone q = (.done, q2, n) → q2 = rg :: q3 →
      retrieve_environment rg = .ok none →
      (make_absent p b).1 = .ok true none) := by
  refine ⟨?_, ?_, ?_⟩
  · intro b r q hq hr
    simp [make_absent, retrieveNext, hq, hr]
  · intro b r q env msg hq hr ht
    simp [make_absent, retrieveNext, hq, hr, ht]
  · intro b r q env q2 q3 n rg hq hr ht hpoll hq2 hrg
    subst hq2
    simp [make_absent, retrieveNext, finalRead, hq, hr, ht, hpoll, hrg]

/-- Witness for C6: the not-found failure, the fatal termination error,
and a successful terminate-poll-return run, each at a concrete client. -/
theorem make_absent_spec_witness :
    make_absent ⟨"app", "1.0", "myenv", "cn", "bkt", "key", some "stack", false, []⟩
      ⟨[DescribeResult.ok []], .ok [], .ok, .ok, .ok [], .ok true, .ok [],
        .ok, .ok, .ok, .ok, .ok⟩ =
      (.fail "Environment myenv not found for Application app.", [Call.describeEnv]) ∧
    make_absent ⟨"app", "1.0", "myenv", "cn", "bkt", "key", some "stack", false, []⟩
      ⟨[DescribeResult.ok [⟨"e-1", "myenv", "Ready", none⟩]], .ok [], .ok, .ok, .ok [],
        .ok true, .ok [], .ok, .ok, .ok, .exn "denied", .ok⟩ =
      (.fail "Unable to terminate Environment myenv: denied",
       [Call.describeEnv, Call.terminateEnv]) ∧
    (make_absent ⟨"app", "1.0", "myenv", "cn", "bkt", "key", some "stack", false, []⟩
      ⟨[DescribeResult.ok [⟨"e-1", "myenv", "Ready", none⟩],
        DescribeResult.ok [⟨"e-1", "myenv", "Terminating", none⟩],
        DescribeResult.ok [], DescribeResult.ok []], .ok [], .ok, .ok, .ok [],
        .ok true, .ok [], .ok, .ok, .ok, .ok, .ok⟩).1 = .ok true none := by
  refine ⟨(make_absent_spec _).1 _ _ _ rfl rfl,
    (make_absent_spec _).2.1 _ _ _ ⟨"e-1", "myenv", "Ready", none⟩ _ rfl rfl rfl,
    (make_absent_spec _).2.2 _ _ _ ⟨"e-1", "myenv", "Ready", none⟩
      [DescribeResult.ok []] [] 2 (DescribeResult.ok []) rfl rfl rfl (by decide) rfl rfl⟩

/-- C8: from a state with no matching environment and a free alias, a
first run of make_present that provisions and creates the environment
returns changed=true with the created record, and a second identical run
whose initial read now finds that record short-circuits with
changed=false and the same record. -/
theorem make_present_idempotent (p : Params) (b1 b2 : Beanstalk)
    (q1 q2 q3 : List DescribeResult) (n : Nat) (e : Environment)
    (stackList : List String) (c2 : Bool) (avc : List Call)
    (r2 : DescribeResult) (rest2 : List DescribeResult)
    (hred : p.redeploy = false)
    (hq1 : b1.describeEnvQ = DescribeResult.ok [] :: q1)
    (hls : b1.listStacksR = .ok stackList)
    (hss : p.solution_stack.getD "" ≠ "")
    (hmem : p.solution_stack.getD "" ∈ stackList)
    (ha : b1.createAppR = .ok)
    (hv : ensure_application_version p b1 true = (.ok c2, avc))
    (hdns : b1.checkDnsR = .ok true)
    (hce : b1.createEnvR = .ok)
    (hpoll : pollStatus q1 = (.done, q2, n))
    (hfin : retrieveNext q2 = (.out (some e), q3))
    (hq2 : b2.describeEnvQ = r2 :: rest2)
    (hr2 : retrieve_environment r2 = .ok (some e)) :
    (make_present p b1).1 = .ok true (some e) ∧
    make_present p b2 = (.ok false (some e), [Call.describeEnv]) := by
  constructor
  · have hb := make_present_branches p b1 (DescribeResult.ok []) q1 none stackList
      true c2 avc true hq1 rfl (by simp) hls hss hmem (by simp [ensure_application, ha])
      hv hdns
    rw [hb]
    simp [directCreate, finalRead, hce, hpoll, hfin]
  · simp [make_present, retrieveNext, hq2, hr2, hred]

/-- Witness for C8: a concrete fresh-create run followed by a rerun that
finds the environment the first run created. -/
theorem make_present_idempotent_witness :
    (make_present ⟨"app", "1.0", "myenv", "my_cname", "bkt", "key", some "stack", false, []⟩
      ⟨[DescribeResult.ok [],
        DescribeResult.ok [⟨"e-1", "myenv", "Ready", some "my_cname.example.com"⟩],
        DescribeResult.ok [⟨"e-1", "myenv", "Ready", some "my_cname.example.com"⟩]],
       .ok ["stack"], .ok, .ok, .ok [], .ok true, .ok [], .ok, .ok, .ok, .ok, .ok⟩).1 =
      .ok true (some ⟨"e-1", "myenv", "Ready", some "my_cname.example.com"⟩) ∧
    make_present ⟨"app", "1.0", "myenv", "my_cname", "bkt", "key", some "stack", false, []⟩
      ⟨[DescribeResult.ok [⟨"e-1", "myenv", "Ready", some "my_cname.example.com"⟩]],
       .ok ["stack"], .ok, .ok, .ok [], .ok true, .ok [], .ok, .ok, .ok, .ok, .ok⟩ =
      (.ok false (some ⟨"e-1", "myenv", "Ready", some "my_cname.example.com"⟩),
       [Call.describeEnv]) :=
  make_present_idempotent _ _ _
    [DescribeResult.ok [⟨"e-1", "myenv", "Ready", some "my_cname.example.com"⟩],
     DescribeResult.ok [⟨"e-1", "myenv", "Ready", some "my_cname.example.com"⟩]]
    [DescribeResult.ok [⟨"e-1", "myenv", "Ready", some "my_cname.example.com"⟩]]
    [] 1 ⟨"e-1", "myenv", "Ready", some "my_cname.example.com"⟩ ["stack"]
    true [Call.createAppVersion]
    (DescribeResult.ok [⟨"e-1", "myenv", "Ready", some "my_cname.example.com"⟩]) []
    rfl rfl rfl (by decide) (by decide) rfl rfl rfl rfl (by decide) (by decide) rfl rfl

/-- Helper: the application-version step issues its creation call and, on
the already-exists path, the describe call, and nothing else. -/
theorem ensure_application_version_calls (p : Params) (b : Beanstalk) (c : Bool) :
    (ensure_application_version p b c).2 = [Call.createAppVersion] ∨
    (ensure_application_version p b c).2 =
      [Call.createAppVersion, Call.describeAppVersions] := by
  rcases hc : b.createAppVersionR with _ | msg
  · simp [ensure_application_version, hc]
  · simp only [ensure_application_version, hc]
    split <;> simp

/-- C4 (amended): with no existing environment, an occupied alias and
redeploy off, make_present fails with the CNAME-conflict message and
issues no environment-creation or swap call, but it does issue the
application and application-version creation calls before failing. -/
theorem make_present_alias_conflict (p : Params) (b : Beanstalk)
    (q : List DescribeResult) (stackList : List String)
    (c1 c2 : Bool) (avc : List Call) (r : DescribeResult)
    (hred : p.redeploy = false)
    (hq : b.describeEnvQ = r :: q)
    (hr : retrieve_environment r = .ok none)
    (hls : b.listStacksR = .ok stackList)
    (hss : p.solution_stack.getD "" ≠ "")
    (hmem : p.solution_stack.getD "" ∈ stackList)
    (ha : ensure_application p.application_name b.createAppR false = .ok c1)
    (hv : ensure_application_version p b c1 = (.ok c2, avc))
    (hdns : b.checkDnsR = .ok false) :
    make_present p b =
      (.fail "CNAME already in use and redeploy parameter not specified.",
       [Call.describeEnv, Call.listStacks, Call.createApp] ++ avc ++ [Call.checkDns]) ∧
    Call.createApp ∈ (make_present p b).2 ∧
    Call.createAppVersion ∈ (make_present p b).2 ∧
    Call.createEnv ∉ (make_present p b).2 ∧
    Call.createEnvNoCname ∉ (make_present p b).2 ∧
    Call.swapCnames ∉ (make_present p b).2 := by
  have hb := make_present_branches p b r q none stackList c1 c2 avc false hq hr
    (by simp) hls hss hmem ha hv hdns
  rw [hred] at hb
  simp only [Bool.false_eq_true, if_false] at hb
  have havc : avc = [Call.createAppVersion] ∨
      avc = [Call.createAppVersion, Call.describeAppVersions] := by
    have := ensure_application_version_calls p b c1
    rw [hv] at this
    exact this
  refine ⟨hb, ?_, ?_, ?_, ?_, ?_⟩ <;> rw [hb] <;>
    rcases havc with h | h <;> subst h <;> simp

/-- Counterexample to C4 as stated: a concrete alias-conflict run fails
with the conflict message, yet the application and application-version
creation calls were already issued before the failure. -/
theorem make_present_alias_conflict_counterexample :
    (make_present ⟨"app", "1.0", "myenv", "my_cname", "bkt", "key", some "stack", false, []⟩
      ⟨[DescribeResult.ok []], .ok ["stack"], .ok, .ok, .ok [], .ok false, .ok [],
        .ok, .ok, .ok, .ok, .ok⟩).1 =
      .fail "CNAME already in use and redeploy parameter not specified." ∧
    Call.createApp ∈
      (make_present ⟨"app", "1.0", "myenv", "my_cname", "bkt", "key", some "stack", false, []⟩
        ⟨[DescribeResult.ok []], .ok ["stack"], .ok, .ok, .ok [], .ok false, .ok [],
          .ok, .ok, .ok, .ok, .ok⟩).2 ∧
    Call.createAppVersion ∈
      (make_present ⟨"app", "1.0", "myenv", "my_cname", "bkt", "key", some "stack", false, []⟩
        ⟨[DescribeResult.ok []], .ok ["stack"], .ok, .ok, .ok [], .ok false, .ok [],
          .ok, .ok, .ok, .ok, .ok⟩).2 := by
  decide

/-- Witness for C4 (amended) at a concrete alias-conflict run. -/
theorem make_present_alias_conflict_witness :
    make_present ⟨"app2", "1.0", "myenv", "my_cname", "bkt", "key", some "stack", false, []⟩
      ⟨[DescribeResult.ok []], .ok ["stack"], .ok, .ok, .ok [], .ok false, .ok [],
        .ok, .ok, .ok, .ok, .ok⟩ =
      (.fail "CNAME already in use and redeploy parameter not specified.",
       [Call.describeEnv, Call.listStacks, Call.createApp] ++ [Call.createAppVersion] ++
         [Call.checkDns]) :=
  (make_present_alias_conflict
    ⟨"app2", "1.0", "myenv", "my_cname", "bkt", "key", some "stack", false, []⟩
    ⟨[DescribeResult.ok []], .ok ["stack"], .ok, .ok, .ok [], .ok false, .ok [],
      .ok, .ok, .ok, .ok, .ok⟩
    [] ["stack"] true true [Call.createAppVersion]
    (DescribeResult.ok []) rfl rfl rfl rfl (by decide) (by decide) rfl rfl rfl).1

/-- C10: in the direct-create branch (alias free), every creation error,
the already-exists message included, is fatal — so with redeploy=true, an
existing environment of the desired name and a free alias, make_present
fails rather than converging; the swap branch, by contrast, never
surfaces that same creation error as the fatal create-environment
failure. -/
theorem direct_create_already_exists_fatal (p : Params) (b : Beanstalk)
    (q : List DescribeResult) (stackList : List String) (c1 c2 : Bool) (avc : List Call)
    (r : DescribeResult) (env : Environment)
    (hred : p.redeploy = true)
    (hq : b.describeEnvQ = r :: q)
    (hr : retrieve_environment r = .ok (some env))
    (hls : b.listStacksR = .ok stackList)
    (hss : p.solution_stack.getD "" ≠ "")
    (hmem : p.solution_stack.getD "" ∈ stackList)
    (ha : ensure_application p.application_name b.createAppR false = .ok c1)
    (hv : ensure_application_version p b c1 = (.ok c2, avc))
    (hdns : b.checkDnsR = .ok true)
    (hce : b.createEnvR =
      .exn ("Environment " ++ p.environment_name ++ " already exists.")) :
    (make_present p b).1 =
      .fail ("Unable to create Environment " ++ p.environment_name ++ ": " ++
        ("Environment " ++ p.environment_name ++ " already exists.")) ∧
    (∀ b2 q2 log2 l ce, b2.describeAllR = .ok l →
      findCurrentEnvironment p.cname l = .found ce →
      b2.createEnvSwapR =
        .exn ("Environment " ++ p.environment_name ++ " already exists.") →
      (swapDeploy p b2 q2 log2).1 ≠
        .fail ("Unable to create Environment " ++ p.environment_name ++ ": " ++
          ("Environment " ++ p.environment_name ++ " already exists."))) := by
  constructor
  · have hb := make_present_branches p b r q (some env) stackList c1 c2 avc true hq hr
      (by simp [hred]) hls hss hmem ha hv hdns
    rw [hb]
    simp [directCreate, hce]
  · intro b2 q2 log2 l ce hall hfind hsw
    simp [swapDeploy, doSwap, hall, hfind, hsw]

/-- Witness for C10: a concrete run where the direct-create branch makes
the already-exists error fatal, and a concrete swap branch that tolerates
the same error. -/
theorem direct_create_already_exists_fatal_witness :
    (make_present ⟨"app", "1.0", "myenv", "my_cname", "bkt", "key", some "stack", true, []⟩
      ⟨[DescribeResult.ok [⟨"e-1", "myenv", "Ready", some "my_cname.example.com"⟩]],
        .ok ["stack"], .ok, .ok, .ok [], .ok true, .ok [],
        .exn "Environment myenv already exists.", .ok, .ok, .ok, .ok⟩).1 =
      .fail "Unable to create Environment myenv: Environment myenv already exists." ∧
    (swapDeploy ⟨"app", "1.0", "myenv", "my_cname", "bkt", "key", some "stack", true, []⟩
      ⟨[], .ok ["stack"], .ok, .ok, .ok [], .ok false,
        .ok [⟨"e-1", "env1", "Ready", some "my_cname.example.com"⟩],
        .ok, .exn "Environment myenv already exists.", .ok, .ok, .ok⟩ [] []).1 ≠
      .fail "Unable to create Environment myenv: Environment myenv already exists." := by
  have h := direct_create_already_exists_fatal
    ⟨"app", "1.0", "myenv", "my_cname", "bkt", "key", some "stack", true, []⟩
    ⟨[DescribeResult.ok [⟨"e-1", "myenv", "Ready", some "my_cname.example.com"⟩]],
      .ok ["stack"], .ok, .ok, .ok [], .ok true, .ok [],
      .exn "Environment myenv already exists.", .ok, .ok, .ok, .ok⟩
    [] ["stack"] true true [Call.createAppVersion] _
    ⟨"e-1", "myenv", "Ready", some "my_cname.example.com"⟩
    rfl rfl rfl rfl (by decide) (by decide) rfl rfl rfl rfl
  exact ⟨h.1, h.2
    ⟨[], .ok ["stack"], .ok, .ok, .ok [], .ok false,
      .ok [⟨"e-1", "env1", "Ready", some "my_cname.example.com"⟩],
      .ok, .exn "Environment myenv already exists.", .ok, .ok, .ok⟩
    [] [] [⟨"e-1", "env1", "Ready", some "my_cname.example.com"⟩]
    ⟨"e-1", "env1", "Ready", some "my_cname.example.com"⟩ rfl (by decide) rfl⟩

/-- C3 (amended): in the swap-source derivation, a record without a
readable CNAME encountered before any match produces the distinct
derive-CNAME failure; when every record is readable and none has the
desired leading label, next() raises StopIteration, which is uncaught,
and the run crashes rather than failing descriptively; when several
records match, the first one is silently used. -/
theorem swap_source_lookup (p : Params) (b : Beanstalk) (q : List DescribeResult)
    (log : List Call) (l : List Environment)
    (hall : b.describeAllR = .ok l) :
    (findCurrentEnvironment p.cname l = .stopIteration →
      (swapDeploy p b q log).1 = .crash "StopIteration") ∧
    (findCurrentEnvironment p.cname l = .keyError →
      (swapDeploy p b q log).1 =
        .fail "Unable to derive CNAME prefix from environment: KeyError") ∧
    (∀ c l2, (∀ e ∈ l2, e.CNAME ≠ none ∧ Option.map firstLabel e.CNAME ≠ some c) →
      findCurrentEnvironment c l2 = .stopIteration) ∧
    (∀ c e s rest, e.CNAME = some s → firstLabel s = c →
      findCurrentEnvironment c (e :: rest) = .found e) := by
  refine ⟨fun hfind => ?_, fun hfind => ?_, fun c l2 hl2 => ?_,
    fun c e s rest hs hlab => ?_⟩
  · simp [swapDeploy, hall, hfind]
  · simp [swapDeploy, hall, hfind]
  · induction l2 with
    | nil => rfl
    | cons e rest ih =>
      obtain ⟨h1, h2⟩ := hl2 e (List.mem_cons_self e rest)
      cases hs : e.CNAME with
      | none => exact absurd hs h1
      | some s =>
        have hne : firstLabel s ≠ c := by
          intro hh
          exact h2 (by rw [hs]; simp [hh])
        simp only [findCurrentEnvironment, hs, hne, if_false]
        exact ih (fun e2 he2 => hl2 e2 (List.mem_cons_of_mem _ he2))
  · simp [findCurrentEnvironment, hs, hlab]

/-- Counterexample to C3 as stated: with no record matching the desired
leading label the run ends in an uncaught StopIteration crash, not a
descriptive failure, and with two matching records it proceeds with the
first match to a successful swap instead of failing as ambiguous. -/
theorem swap_source_lookup_counterexample :
    (make_present ⟨"app", "1.0", "newenv", "my_cname", "bkt", "key", some "stack", true, []⟩
      ⟨[DescribeResult.ok []], .ok ["stack"], .ok, .ok, .ok [], .ok false,
        .ok [⟨"e-1", "other", "Ready", some "other.example.com"⟩],
        .ok, .ok, .ok, .ok, .ok⟩).1 = .crash "StopIteration" ∧
    (make_present ⟨"app", "1.0", "newenv", "my_cname", "bkt", "key", some "stack", true, []⟩
      ⟨[DescribeResult.ok [],
        DescribeResult.ok [⟨"e-9", "newenv", "Ready", some "tmp.example.com"⟩],
        DescribeResult.ok [⟨"e-9", "newenv", "Ready", some "tmp.example.com"⟩],
        DescribeResult.ok [⟨"e-9", "newenv", "Ready", some "my_cname.example.com"⟩],
        DescribeResult.ok [⟨"e-9", "newenv", "Ready", some "my_cname.example.com"⟩]],
       .ok ["stack"], .ok, .ok, .ok [], .ok false,
       .ok [⟨"e-1", "env1", "Ready", some "my_cname.example.com"⟩,
            ⟨"e-2", "env2", "Ready", some "my_cname.example.com"⟩],
       .ok, .ok, .ok, .ok, .ok⟩).1 =
      .ok true (some ⟨"e-9", "newenv", "Ready", some "my_cname.example.com"⟩) := by
  decide

/-- Witness for C3 (amended) at concrete lookups and swap runs. -/
theorem swap_source_lookup_witness :
    (swapDeploy ⟨"app", "1.0", "newenv", "my_cname", "bkt", "key", some "stack", true, []⟩
      ⟨[], .ok [], .ok, .ok, .ok [], .ok false,
        .ok [⟨"e-1", "other", "Ready", some "other.example.com"⟩],
        .ok, .ok, .ok, .ok, .ok⟩ [] []).1 = .crash "StopIteration" ∧
    (swapDeploy ⟨"app", "1.0", "newenv", "my_cname", "bkt", "key", some "stack", true, []⟩
      ⟨[], .ok [], .ok, .ok, .ok [], .ok false,
        .ok [⟨"e-1", "broken", "Ready", none⟩],
        .ok, .ok, .ok, .ok, .ok⟩ [] []).1 =
      .fail "Unable to derive CNAME prefix from environment: KeyError" ∧
    findCurrentEnvironment "my_cname"
      [⟨"e-1", "other", "Ready", some "other.example.com"⟩] = .stopIteration ∧
    findCurrentEnvironment "my_cname"
      [⟨"e-1", "env1", "Ready", some "my_cname.example.com"⟩,
       ⟨"e-2", "env2", "Ready", some "my_cname.example.com"⟩] =
      .found ⟨"e-1", "env1", "Ready", some "my_cname.example.com"⟩ := by
  have h1 := swap_source_lookup
    ⟨"app", "1.0", "newenv", "my_cname", "bkt", "key", some "stack", true, []⟩
    ⟨[], .ok [], .ok, .ok, .ok [], .ok false,
      .ok [⟨"e-1", "other", "Ready", some "other.example.com"⟩],
      .ok, .ok, .ok, .ok, .ok⟩ [] []
    [⟨"e-1", "other", "Ready", some "other.example.com"⟩] rfl
  have h2 := swap_source_lookup
    ⟨"app", "1.0", "newenv", "my_cname", "bkt", "key", some "stack", true, []⟩
    ⟨[], .ok [], .ok, .ok, .ok [], .ok false,
      .ok [⟨"e-1", "broken", "Ready", none⟩],
      .ok, .ok, .ok, .ok, .ok⟩ [] []
    [⟨"e-1", "broken", "Ready", none⟩] rfl
  exact ⟨h1.1 (by decide), h2.2.1 (by decide),
    h1.2.2.1 "my_cname" [⟨"e-1", "other", "Ready", some "other.example.com"⟩] (by decide),
    h1.2.2.2 "my_cname" ⟨"e-1", "env1", "Ready", some "my_cname.example.com"⟩
      "my_cname.example.com"
      [⟨"e-2", "env2", "Ready", some "my_cname.example.com"⟩] rfl (by decide)⟩

/-- C9: every readiness polling loop dereferences Status without guarding
against absence: a mid-poll read reporting absence crashes the iteration
with a TypeError, and each polling site — after direct creation, after
the swap-flow creation, after the alias swap, and after an app-server
restart — turns that into a crash outcome, never a descriptive failure
result. -/
theorem poll_unguarded_absence :
    (∀ r rest, retrieve_environment r = .ok none →
      pollStatus (r :: rest) =
        (.crashed "TypeError: NoneType object is not subscriptable", rest, 1)) ∧
    (∀ p b q log m q2 n, b.createEnvR = .ok →
      pollStatus q = (.crashed m, q2, n) → (directCreate p b q log).1 = .crash m) ∧
    (∀ p b q log l ce m q2 n, b.describeAllR = .ok l →
      findCurrentEnvironment p.cname l = .found ce → b.createEnvSwapR = .ok →
      pollStatus q = (.crashed m, q2, n) → (swapDeploy p b q log).1 = .crash m) ∧
    (∀ b ne q log m q2 n, b.swapR = .ok → pollStatus q = (.crashed m, q2, n) →
      (doSwap b (some (some ne)) q log).1 = .crash m) ∧
    (∀ p b r q env m q2 n, b.describeEnvQ = r :: q →
      retrieve_environment r = .ok (some env) → b.restartR = .ok →
      pollStatus q = (.crashed m, q2, n) →
      (make_restarted p b).1 = .crash m ∧ ∀ s, (make_restarted p b).1 ≠ .fail s) := by
  refine ⟨?_, ?_, ?_, ?_, ?_⟩
  · intro r rest hr
    simp [pollStatus, hr]
  · intro p b q log m q2 n hce hpoll
    simp [directCreate, hce, hpoll]
  · intro p b q log l ce m q2 n hall hfind hcs hpoll
    simp [swapDeploy, hall, hfind, hcs, hpoll]
  · intro b ne q log m q2 n hsw hpoll
    simp [doSwap, hsw, hpoll]
  · intro p b r q env m q2 n hq hr hrs hpoll
    have hcr : (make_restarted p b).1 = .crash m := by
      simp [make_restarted, retrieveNext, hq, hr, hrs, hpoll]
    exact ⟨hcr, fun s => by rw [hcr]; simp⟩

/-- Witness for C9: a concrete absent read crashing one poll iteration,
and a concrete restart run where that crash is the final outcome. -/
theorem poll_unguarded_absence_witness :
    pollStatus [DescribeResult.ok []] =
      (.crashed "TypeError: NoneType object is not subscriptable", [], 1) ∧
    (make_restarted ⟨"app", "1.0", "myenv", "cn", "bkt", "key", some "stack", false, []⟩
      ⟨[DescribeResult.ok [⟨"e-1", "myenv", "Ready", none⟩], DescribeResult.ok []],
        .ok [], .ok, .ok, .ok [], .ok true, .ok [], .ok, .ok, .ok, .ok, .ok⟩).1 =
      .crash "TypeError: NoneType object is not subscriptable" :=
  ⟨poll_unguarded_absence.1 (DescribeResult.ok []) [] rfl,
   (poll_unguarded_absence.2.2.2.2
      ⟨"app", "1.0", "myenv", "cn", "bkt", "key", some "stack", false, []⟩
      ⟨[DescribeResult.ok [⟨"e-1", "myenv", "Ready", none⟩], DescribeResult.ok []],
        .ok [], .ok, .ok, .ok [], .ok true, .ok [], .ok, .ok, .ok, .ok, .ok⟩
      (DescribeResult.ok [⟨"e-1", "myenv", "Ready", none⟩]) [DescribeResult.ok []]
      ⟨"e-1", "myenv", "Ready", none⟩
      "TypeError: NoneType object is not subscriptable" [] 1
      rfl rfl rfl (by decide)).1⟩

/-- C2: at the failing input — the swap flow where the parallel creation
reports that the environment already exists — the run crashes referencing
the never-assigned new_environment local, before any swap call is issued,
instead of proceeding to swap the alias and return successfully. -/
theorem swap_race_unbound_local :
    (make_present ⟨"app", "1.0", "newenv", "my_cname", "bkt", "key", some "stack", true, []⟩
      ⟨[DescribeResult.ok []], .ok ["stack"], .ok, .ok, .ok [], .ok false,
        .ok [⟨"e-1", "env1", "Ready", some "my_cname.example.com"⟩],
        .ok, .exn "Environment newenv already exists.", .ok, .ok, .ok⟩).1 =
      .crash "NameError: local variable new_environment referenced before assignment" ∧
    Call.swapCnames ∉
      (make_present ⟨"app", "1.0", "newenv", "my_cname", "bkt", "key", some "stack", true, []⟩
        ⟨[DescribeResult.ok []], .ok ["stack"], .ok, .ok, .ok [], .ok false,
          .ok [⟨"e-1", "env1", "Ready", some "my_cname.example.com"⟩],
          .ok, .exn "Environment newenv already exists.", .ok, .ok, .ok⟩).2 := by
  decide

end ElasticBeanstalk

